import Mathlib

/-!
Verification of the goplin Joplin Data API client (src/goplin.go).

The embedding is shallow: each Go function is translated into a Lean
function over explicit inputs.  Network I/O is modelled by response
oracles passed to each operation: a single request becomes a `ReqResult`
argument, the pagination loops take a `server` function from the issued
query parameters to a `ReqResult`, and the pairing poll loop consumes a
finite list of poll responses (an empty remainder means the source loop
is still running, which the embedding reports explicitly).  Go string
maps of query parameters are association lists with upsert update.
Entity records (Tag, Note, Folder, Item) keep exactly the fields the
client logic ever reads (id, parent_id, title); the remaining JSON
fields of the Go structs are serialization payload that no control flow
inspects.  The `req` HTTP handle inside the Go Client struct is an
external collaborator and is not part of the state.
-/

namespace Goplin

/-- Outcome of one HTTP round trip: a transport error (Go: `err != nil`
from the request call) or a response carrying a status code, the raw
dump text used by error messages, and the decoded body. -/
inductive ReqResult (α : Type) where
  | transportErr (msg : String)
  | http (status : Nat) (dump : String) (body : α)
deriving Repr, DecidableEq

/-- req v3 `Response.IsSuccess`: status code in the 2xx range. -/
def isSuccess (status : Nat) : Bool := decide (200 ≤ status ∧ status ≤ 299)

/-- req v3 `Response.IsError`: status code at least 400. -/
def isError (status : Nat) : Bool := decide (400 ≤ status)

/-- Go query-parameter map (`map[string]string`), as an association
list; `setParam` is the map update `m[k] = v`. -/
abbrev QueryParams := List (String × String)

/-- Map update: replace the value at `key` or append the binding. -/
def setParam (qp : QueryParams) (key v : String) : QueryParams :=
  match qp with
  | [] => [(key, v)]
  | (k0, v0) :: rest =>
    if k0 == key then (key, v) :: rest else (k0, v0) :: setParam rest key v

/-- Map read: the value bound to `key`, if present. -/
def lookupParam (qp : QueryParams) (key : String) : Option String :=
  match qp with
  | [] => none
  | (k0, v0) :: rest => if k0 == key then some v0 else lookupParam rest key

/-- Tag record (src/goplin.go): the fields the client logic reads. -/
structure Tag where
  id : String
  parentID : String
  title : String
deriving Repr, DecidableEq

/-- Note record (src/goplin.go): the fields the client logic reads. -/
structure Note where
  id : String
  parentID : String
  title : String
deriving Repr, DecidableEq

/-- Folder record (src/goplin.go): the fields the client logic reads. -/
structure Folder where
  id : String
  parentID : String
  title : String
deriving Repr, DecidableEq

/-- Item record used by Search results (src/goplin.go). -/
structure Item where
  id : String
  parentID : String
  title : String
deriving Repr, DecidableEq

/-- Common shape of the Go result structs tagsResult, notesResult,
foldersResult and searchResult: one collection page. -/
structure Page (α : Type) where
  items : List α
  hasMore : Bool
deriving Repr, DecidableEq

/-- Error classification mirroring the error values the Go code builds:
`transport` for a non-nil error from the request call, `errorResponse`
for the message built from `resp.Dump()` in the `IsError` branches,
`unexpectedResponse` for the fall-through message, `notFound` for the
404-specific messages, `rejected` for `errors.New("request rejected")`,
and `noAnswer` for the message built when polling is exhausted. -/
inductive JError where
  | transport (msg : String)
  | errorResponse (dump : String)
  | unexpectedResponse (dump : String)
  | notFound (msg : String)
  | rejected
  | noAnswer
deriving Repr, DecidableEq

/-- True exactly when an operation result is classified as `not found`. -/
def isNotFound : Option JError → Bool
  | some (.notFound _) => true
  | _ => false

/-- Client struct: the discovered port and the API token.  The `handle`
field of the Go struct (the HTTP client) is an external collaborator. -/
structure Client where
  port : Nat
  apiToken : String
deriving Repr, DecidableEq

def joplinMinPortNum : Nat := 41184
def joplinMaxPortNum : Nat := 41194
def retriesGetApiToken : Nat := 20

/-- Body of the POST /auth response. -/
structure AuthBody where
  authToken : String
deriving Repr, DecidableEq

/-- Body of a GET /auth/check poll response. -/
structure AuthCheckBody where
  status : String
  token : String
deriving Repr, DecidableEq

/-- getAuthToken (src/goplin.go:640): one POST to /auth. -/
def getAuthToken (resp : ReqResult AuthBody) : Except JError String :=
  match resp with
  | .transportErr e => .error (.transport e)
  | .http status dump body =>
    if isError status then .error (.errorResponse dump)
    else if isSuccess status then .ok body.authToken
    else .error (.unexpectedResponse dump)

/-- Poll loop of getApiToken (src/goplin.go:682).  The list holds the
responses the environment would give to successive GET /auth/check
requests; `retries` is the Go counter.  Result: the outcome (`none`
when the list is exhausted while the source loop would issue another
request, i.e. the loop is still running), the number of polls issued,
and the number of one-second sleeps performed. -/
def getApiTokenLoop : List (ReqResult AuthCheckBody) → Nat →
    Option (Except JError String) × Nat × Nat
  | [], _retries => (none, 0, 0)
  | resp :: rest, retries =>
    match resp with
    | .transportErr e => (some (.error (.transport e)), 1, 0)
    | .http status dump body =>
      if isError status then (some (.error (.errorResponse dump)), 1, 0)
      else if isSuccess status then
        if body.status == "accepted" then (some (.ok body.token), 1, 0)
        else if body.status == "rejected" then (some (.error .rejected), 1, 0)
        else if body.status == "waiting" then
          if retries + 1 < retriesGetApiToken then
            let r := getApiTokenLoop rest (retries + 1)
            (r.1, r.2.1 + 1, r.2.2 + 1)
          else (some (.error .noAnswer), 1, 0)
        else
          let r := getApiTokenLoop rest retries
          (r.1, r.2.1 + 1, r.2.2)
      else
        let r := getApiTokenLoop rest retries
        (r.1, r.2.1 + 1, r.2.2)

/-- getApiToken (src/goplin.go:671): the poll loop started with a zero
retry counter.  The auth token is carried in every request issued by
the loop and does not influence the control flow. -/
def getApiToken (_authToken : String) (polls : List (ReqResult AuthCheckBody)) :
    Option (Except JError String) × Nat × Nat :=
  getApiTokenLoop polls 0

/-- Environment for New: the /ping response of every candidate port,
the POST /auth response, and the GET /auth/check poll responses (the
latter two are consulted only when the supplied API token is empty). -/
structure NewEnv where
  probe : Nat → ReqResult String
  authResp : ReqResult AuthBody
  polls : List (ReqResult AuthCheckBody)

/-- Body of the `resp.IsSuccess()` branch of the scan loop of New
(src/goplin.go:610): record the port, run the pairing handshake when
no API token was supplied, and stop scanning. -/
def onPortFound (env : NewEnv) (c : Client) (p : Nat) :
    List Nat × Option (Option Client × Option JError) :=
  if c.apiToken.length == 0 then
    match getAuthToken env.authResp with
    | .error e => ([p], some (none, some e))
    | .ok authTok =>
      match getApiToken authTok env.polls with
      | (none, _, _) => ([p], none)
      | (some (.error e), _, _) => ([p], some (none, some e))
      | (some (.ok tok), _, _) =>
        ([p], some (some { c with port := p, apiToken := tok }, none))
  else ([p], some (some { c with port := p }, none))

/-- Port scan loop of New (src/goplin.go:595).  Returns the list of
ports actually probed and, when the run terminates within the supplied
poll trace, the returned client (`none` models the Go nil pointer) and
the final `retErr` value (`none` models a nil error).  Note the source
slip kept faithfully here: in the `resp.IsError()` branch the Go code
runs `retErr = err` where `err` is necessarily nil, so the remembered
error becomes nil. -/
def scanLoop (env : NewEnv) : List Nat → Client → Option JError →
    List Nat × Option (Option Client × Option JError)
  | [], _c, retErr => ([], some (none, retErr))
  | p :: rest, c, retErr =>
    match env.probe p with
    | .transportErr e =>
      let r := scanLoop env rest c (some (.transport e))
      (p :: r.1, r.2)
    | .http status _dump _body =>
      if isError status then
        let r := scanLoop env rest c none
        (p :: r.1, r.2)
      else if isSuccess status then onPortFound env c p
      else
        let r := scanLoop env rest c retErr
        (p :: r.1, r.2)

/-- New (src/goplin.go:578): scan ports 41184..41194 in ascending
order, starting from the zero-port client holding the supplied token. -/
def New (apiToken : String) (env : NewEnv) :
    List Nat × Option (Option Client × Option JError) :=
  scanLoop env (List.range' joplinMinPortNum (joplinMaxPortNum + 1 - joplinMinPortNum))
    { port := 0, apiToken := apiToken } none

/-- Result of a pagination loop run under a fuel bound: `ok` when the
source loop returned the accumulator with a nil error, `err` when it
returned the accumulator plus an error, `running` when the fuel ran
out while the source loop would issue another request. -/
inductive FetchOut (α : Type) where
  | ok (items : List α)
  | err (items : List α) (e : JError)
  | running (items : List α)
deriving Repr, DecidableEq

/-- The pagination loop shared verbatim (up to the error branch) by
every list operation in src/goplin.go: issue a request with the
current query parameters, abort on transport or HTTP error keeping the
accumulator, append the page items on success, and loop with the page
parameter incremented while the has-more flag is set.  `onErr` builds
the error for an HTTP error status, matching the per-operation
`IsError` branch (some operations special-case 404).  The returned
list logs the query parameters of every request issued, in order. -/
def fetchLoop {α : Type} (server : QueryParams → ReqResult (Page α))
    (onErr : Nat → String → JError) :
    Nat → QueryParams → Nat → List α → List QueryParams × FetchOut α
  | 0, _params, _page, acc => ([], .running acc)
  | fuel + 1, params, page, acc =>
    match server params with
    | .transportErr e => ([params], .err acc (.transport e))
    | .http status dump body =>
      if isError status then ([params], .err acc (onErr status dump))
      else if isSuccess status then
        if body.hasMore then
          let r := fetchLoop server onErr fuel
            (setParam params "page" (Nat.repr (page + 1))) (page + 1) (acc ++ body.items)
          (params :: r.1, r.2)
        else ([params], .ok (acc ++ body.items))
      else ([params], .err acc (.unexpectedResponse dump))

/-- Model of Go strings.ToUpper: character-wise upper-casing.  (Go
applies full Unicode simple case mapping; the character mapping used
here covers the ASCII values the order directives take.) -/
def strToUpper (s : String) : String := String.mk (s.data.map Char.toUpper)

/-- Query-parameter construction shared by the ordered list
operations: the base map literal, then `order_by` when non-empty, then
`order_dir` upper-cased when non-empty (src/goplin.go:951). -/
def buildListParams (base : QueryParams) (orderBy orderDir : String) : QueryParams :=
  let qp1 := if orderBy.length != 0 then setParam base "order_by" orderBy else base
  if orderDir.length != 0 then setParam qp1 "order_dir" (strToUpper orderDir) else qp1

/-- Query-parameter construction of Search (src/goplin.go:1265): the
base map literal, then `type` when queryType is non-empty, then
`fields` when fields is non-empty. -/
def searchParams (token query queryType fields : String) : QueryParams :=
  let qp1 := [("token", token), ("page", "1"), ("query", query)]
  let qp2 := if queryType.length != 0 then setParam qp1 "type" queryType else qp1
  if fields.length != 0 then setParam qp2 "fields" fields else qp2

/-- GetAllNotes (src/goplin.go:939). -/
def GetAllNotes (c : Client) (fields orderBy orderDir : String)
    (server : QueryParams → ReqResult (Page Note)) (fuel : Nat) :
    Client × List QueryParams × FetchOut Note :=
  (c, fetchLoop server (fun _status dump => .errorResponse dump) fuel
    (buildListParams [("token", c.apiToken), ("fields", fields), ("page", "1")]
      orderBy orderDir) 1 [])

/-- GetNotesByTag (src/goplin.go:877): fields are fixed to
id,parent_id,title and a 404 is classified as not found. -/
def GetNotesByTag (c : Client) (id orderBy orderDir : String)
    (server : QueryParams → ReqResult (Page Note)) (fuel : Nat) :
    Client × List QueryParams × FetchOut Note :=
  (c, fetchLoop server
    (fun status dump =>
      if status == 404 then .notFound ("could not find note with IDs \x27" ++ id)
      else .errorResponse dump) fuel
    (buildListParams [("token", c.apiToken), ("fields", "id,parent_id,title"), ("page", "1")]
      orderBy orderDir) 1 [])

/-- GetNotesInFolder (src/goplin.go:997). -/
def GetNotesInFolder (c : Client) (id fields orderBy orderDir : String)
    (server : QueryParams → ReqResult (Page Note)) (fuel : Nat) :
    Client × List QueryParams × FetchOut Note :=
  (c, fetchLoop server (fun _status dump => .errorResponse dump) fuel
    (buildListParams [("token", c.apiToken), ("fields", fields), ("page", "1")]
      orderBy orderDir) 1 [])

/-- GetAllFolders (src/goplin.go:1056). -/
def GetAllFolders (c : Client) (fields orderBy orderDir : String)
    (server : QueryParams → ReqResult (Page Folder)) (fuel : Nat) :
    Client × List QueryParams × FetchOut Folder :=
  (c, fetchLoop server (fun _status dump => .errorResponse dump) fuel
    (buildListParams [("token", c.apiToken), ("fields", fields), ("page", "1")]
      orderBy orderDir) 1 [])

/-- GetAllTags (src/goplin.go:1148): fields fixed to id,parent_id,title. -/
def GetAllTags (c : Client) (orderBy orderDir : String)
    (server : QueryParams → ReqResult (Page Tag)) (fuel : Nat) :
    Client × List QueryParams × FetchOut Tag :=
  (c, fetchLoop server (fun _status dump => .errorResponse dump) fuel
    (buildListParams [("token", c.apiToken), ("fields", "id,parent_id,title"), ("page", "1")]
      orderBy orderDir) 1 [])

/-- GetNoteTags (src/goplin.go:1317): fields fixed, 404 classified. -/
def GetNoteTags (c : Client) (id orderBy orderDir : String)
    (server : QueryParams → ReqResult (Page Tag)) (fuel : Nat) :
    Client × List QueryParams × FetchOut Tag :=
  (c, fetchLoop server
    (fun status dump =>
      if status == 404 then .notFound ("could not find note with IDs \x27" ++ id)
      else .errorResponse dump) fuel
    (buildListParams [("token", c.apiToken), ("fields", "id,parent_id,title"), ("page", "1")]
      orderBy orderDir) 1 [])

/-- Search (src/goplin.go:1259). -/
def Search (c : Client) (query queryType fields : String)
    (server : QueryParams → ReqResult (Page Item)) (fuel : Nat) :
    Client × List QueryParams × FetchOut Item :=
  (c, fetchLoop server (fun _status dump => .errorResponse dump) fuel
    (searchParams c.apiToken query queryType fields) 1 [])

/-- Go zero value of the Tag struct. -/
def zeroTag : Tag := { id := "", parentID := "", title := "" }

/-- Go zero value of the Note struct. -/
def zeroNote : Note := { id := "", parentID := "", title := "" }

/-- Go zero value of the Folder struct. -/
def zeroFolder : Folder := { id := "", parentID := "", title := "" }

/-- GetTag (src/goplin.go:734).  On an error status the body is the
value req decoded through SetError; on a response that is neither
success nor error nothing is decoded, leaving the zero Tag. -/
def GetTag (c : Client) (id fields : String) (resp : ReqResult Tag) :
    Client × Tag × Option JError :=
  (c, match resp with
    | .transportErr e => (zeroTag, some (.transport e))
    | .http status dump body =>
      if isError status then
        if status == 404 then
          (body, some (.notFound ("could not find tag with IDs \x27" ++ id)))
        else (body, some (.errorResponse dump))
      else if isSuccess status then (body, none)
      else (zeroTag, some (.unexpectedResponse dump)))

/-- CreateTag (src/goplin.go:769): a 404 yields the dedicated
"could not create tag" message, other error statuses the generic one. -/
def CreateTag (c : Client) (title : String) (resp : ReqResult Unit) :
    Client × Option JError :=
  (c, match resp with
    | .transportErr e => some (.transport e)
    | .http status dump _body =>
      if isError status then
        if status == 404 then some (.notFound "could not create tag")
        else some (.errorResponse dump)
      else if isSuccess status then none
      else some (.unexpectedResponse dump))

/-- GetNote (src/goplin.go:807). -/
def GetNote (c : Client) (id fields : String) (resp : ReqResult Note) :
    Client × Note × Option JError :=
  (c, match resp with
    | .transportErr e => (zeroNote, some (.transport e))
    | .http status dump body =>
      if isError status then
        if status == 404 then
          (body, some (.notFound ("could not find note with ID \x27" ++ id)))
        else (body, some (.errorResponse dump))
      else if isSuccess status then (body, none)
      else (zeroNote, some (.unexpectedResponse dump)))

/-- UpdateNote (src/goplin.go:841). -/
def UpdateNote (c : Client) (id title parent_id : String) (resp : ReqResult Unit) :
    Client × Option JError :=
  (c, match resp with
    | .transportErr e => some (.transport e)
    | .http status dump _body =>
      if isError status then
        if status == 404 then
          some (.notFound ("could not find note with ID \x27" ++ id))
        else some (.errorResponse dump)
      else if isSuccess status then none
      else some (.unexpectedResponse dump))

/-- GetFolder (src/goplin.go:1114). -/
def GetFolder (c : Client) (id fields : String) (resp : ReqResult Folder) :
    Client × Folder × Option JError :=
  (c, match resp with
    | .transportErr e => (zeroFolder, some (.transport e))
    | .http status dump body =>
      if isError status then
        if status == 404 then
          (body, some (.notFound ("could not find folder with ID \x27" ++ id)))
        else (body, some (.errorResponse dump))
      else if isSuccess status then (body, none)
      else (zeroFolder, some (.unexpectedResponse dump)))

/-- DeleteTag (src/goplin.go:1206): every error status, including 404,
takes the generic error branch. -/
def DeleteTag (c : Client) (id : String) (resp : ReqResult Unit) :
    Client × Option JError :=
  (c, match resp with
    | .transportErr e => some (.transport e)
    | .http status dump _body =>
      if isError status then some (.errorResponse dump)
      else if isSuccess status then none
      else some (.unexpectedResponse dump))

/-- DeleteTagFromNote (src/goplin.go:1232): generic error branch only. -/
def DeleteTagFromNote (c : Client) (tagID noteID : String) (resp : ReqResult Unit) :
    Client × Option JError :=
  (c, match resp with
    | .transportErr e => some (.transport e)
    | .http status dump _body =>
      if isError status then some (.errorResponse dump)
      else if isSuccess status then none
      else some (.unexpectedResponse dump))

/-- CreateFolder (src/goplin.go:1503): the enclosing for loop returns
on every branch of its first iteration; the error branch formats
`resp.Error()` but keeps the generic classification. -/
def CreateFolder (c : Client) (folder_name parent_id : String) (resp : ReqResult Unit) :
    Client × Option JError :=
  (c, match resp with
    | .transportErr e => some (.transport e)
    | .http status dump _body =>
      if isError status then some (.errorResponse dump)
      else if isSuccess status then none
      else some (.unexpectedResponse dump))

/-- CreateTagsNotes (src/goplin.go:1383): attach a tag to a note.  The
enclosing for loop returns on every branch of its first iteration; the
error branch formats `resp.Error()` but keeps the generic
classification, with no 404 special case. -/
def CreateTagsNotes (c : Client) (note_id tagID : String) (resp : ReqResult Unit) :
    Client × Option JError :=
  (c, match resp with
    | .transportErr e => some (.transport e)
    | .http status dump _body =>
      if isError status then some (.errorResponse dump)
      else if isSuccess status then none
      else some (.unexpectedResponse dump))

/-- DeleteFolder (src/goplin.go:1544): generic error branch only. -/
def DeleteFolder (c : Client) (folder_id : String) (resp : ReqResult Unit) :
    Client × Option JError :=
  (c, match resp with
    | .transportErr e => some (.transport e)
    | .http status dump _body =>
      if isError status then some (.errorResponse dump)
      else if isSuccess status then none
      else some (.unexpectedResponse dump))

/-- Concatenation of the pages returned for a list of page numbers. -/
def catPages {α : Type} (pages : Nat → List α) : List Nat → List α
  | [] => []
  | i :: is => pages i ++ catPages pages is

theorem catPages_nil {α : Type} (pages : Nat → List α) : catPages pages [] = [] := rfl

theorem catPages_cons {α : Type} (pages : Nat → List α) (i : Nat) (is : List Nat) :
    catPages pages (i :: is) = pages i ++ catPages pages is := rfl

theorem lookupParam_setParam_same (qp : QueryParams) (key v : String) :
    lookupParam (setParam qp key v) key = some v := by
  induction qp with
  | nil => simp [setParam, lookupParam]
  | cons hd tl ih =>
    obtain ⟨k0, v0⟩ := hd
    by_cases h : (k0 == key) = true
    · simp [setParam, h, lookupParam]
    · simp [setParam, h, lookupParam, ih]

theorem lookupParam_setParam_ne (qp : QueryParams) (key k2 v : String) (hne : key ≠ k2) :
    lookupParam (setParam qp key v) k2 = lookupParam qp k2 := by
  induction qp with
  | nil => simp [setParam, lookupParam, beq_eq_false_iff_ne.mpr hne]
  | cons hd tl ih =>
    obtain ⟨k0, v0⟩ := hd
    by_cases h : (k0 == key) = true
    · have hk0 : k0 = key := beq_iff_eq.mp h
      subst hk0
      simp [setParam, lookupParam, beq_eq_false_iff_ne.mpr hne]
    · by_cases h2 : (k0 == k2) = true
      · simp [setParam, h, lookupParam, h2]
      · simp [setParam, h, lookupParam, h2, ih]

theorem isError_of_isSuccess {s : Nat} (h : isSuccess s = true) : isError s = false := by
  simp only [isSuccess, isError, decide_eq_true_eq] at h ⊢
  simp only [decide_eq_false_iff_not]
  omega

/-- Every request a pagination run issues agrees with the initial query
parameters on every key other than `page` (the loop only ever rewrites
the `page` entry). -/
theorem fetchLoop_log_lookup {α : Type} (server : QueryParams → ReqResult (Page α))
    (onErr : Nat → String → JError) (key : String) (hkey : key ≠ "page") :
    ∀ (fuel : Nat) (params : QueryParams) (page : Nat) (acc : List α)
      (qp : QueryParams), qp ∈ (fetchLoop server onErr fuel params page acc).1 →
      lookupParam qp key = lookupParam params key := by
  intro fuel
  induction fuel with
  | zero =>
    intro params page acc qp hqp
    simp [fetchLoop] at hqp
  | succ n ih =>
    intro params page acc qp hqp
    rw [fetchLoop] at hqp
    cases hsv : server params with
    | transportErr e =>
      rw [hsv] at hqp
      simp only [List.mem_singleton] at hqp
      rw [hqp]
    | http status dump body =>
      rw [hsv] at hqp
      by_cases he : isError status = true
      · simp only [he, if_true, List.mem_singleton] at hqp
        rw [hqp]
      · by_cases hs : isSuccess status = true
        · by_cases hm : body.hasMore = true
          · simp only [he, hs, hm, if_true, if_false, Bool.false_eq_true,
              List.mem_cons] at hqp
            rcases hqp with h | h
            · rw [h]
            · have := ih (setParam params "page" (Nat.repr (page + 1))) (page + 1)
                (acc ++ body.items) qp h
              rw [this, lookupParam_setParam_ne _ _ _ _ (Ne.symm hkey)]
          · simp only [he, hs, hm, if_true, if_false, Bool.false_eq_true,
              List.mem_singleton] at hqp
            rw [hqp]
        · simp only [he, hs, if_false, Bool.false_eq_true, List.mem_singleton] at hqp
          rw [hqp]

/-- Successful pagination run: if the server answers every request
whose page parameter is i (1 ≤ i ≤ k) with status 200 and the i-th
collection page, flagging more pages exactly when i < k, then from any
start page j the loop returns the accumulator extended by pages j..k
with no error, and the issued requests carry the page values j..k in
order. -/
theorem fetchLoop_goodRun {α : Type} (server : QueryParams → ReqResult (Page α))
    (onErr : Nat → String → JError) (pages : Nat → List α) (dumps : Nat → String)
    (k : Nat)
    (hserver : ∀ (qp : QueryParams) (i : Nat), 1 ≤ i → i ≤ k →
      lookupParam qp "page" = some (Nat.repr i) →
      server qp = .http 200 (dumps i) { items := pages i, hasMore := decide (i < k) }) :
    ∀ (fuel : Nat) (j : Nat) (params : QueryParams) (acc : List α),
      1 ≤ j → j ≤ k → k - j < fuel →
      lookupParam params "page" = some (Nat.repr j) →
      (fetchLoop server onErr fuel params j acc).2
          = .ok (acc ++ catPages pages (List.range' j (k + 1 - j)))
        ∧ ((fetchLoop server onErr fuel params j acc).1).map
            (fun qp => lookupParam qp "page")
          = (List.range' j (k + 1 - j)).map (fun i => some (Nat.repr i)) := by
  intro fuel
  induction fuel with
  | zero => intro j params acc hj hjk hfuel hpage; omega
  | succ n ih =>
    intro j params acc hj hjk hfuel hpage
    have hsv := hserver params j hj hjk hpage
    have he : isError 200 = false := by decide
    have hs : isSuccess 200 = true := by decide
    by_cases hlt : j < k
    · have hrange : List.range' j (k + 1 - j) = j :: List.range' (j + 1) (k - j) := by
        have h1 : k + 1 - j = (k - j) + 1 := by omega
        rw [h1, List.range'_succ]
      have rec := ih (j + 1) (setParam params "page" (Nat.repr (j + 1)))
        (acc ++ pages j) (by omega) (by omega) (by omega)
        (lookupParam_setParam_same params "page" (Nat.repr (j + 1)))
      have hkj : k + 1 - (j + 1) = k - j := by omega
      rw [hkj] at rec
      have hm : decide (j < k) = true := decide_eq_true hlt
      rw [fetchLoop, hsv, hrange]
      simp only [he, hs, hm, Bool.false_eq_true, if_false, eq_self_iff_true, if_true,
        catPages_cons, List.map_cons]
      refine ⟨?_, ?_⟩
      · rw [← List.append_assoc]
        exact rec.1
      · rw [hpage, rec.2]
    · have hrange : List.range' j (k + 1 - j) = [j] := by
        have h1 : k + 1 - j = 1 := by omega
        rw [h1, List.range'_one]
      have hm : decide (j < k) = false := decide_eq_false hlt
      rw [fetchLoop, hsv, hrange]
      simp only [he, hs, hm, Bool.false_eq_true, if_false, eq_self_iff_true, if_true,
        catPages_cons, catPages_nil, List.append_nil, List.map_cons, List.map_nil]
      exact ⟨trivial, by rw [hpage]⟩

/-- Failing pagination run: n successful pages starting at page j, each
flagged has-more, then a failing request (transport error or HTTP
error status): the loop returns the items accumulated so far plus an
error. -/
theorem fetchLoop_errRun {α : Type} (server : QueryParams → ReqResult (Page α))
    (onErr : Nat → String → JError) (pages : Nat → List α) (dumps : Nat → String) :
    ∀ (n fuel j : Nat) (params : QueryParams) (acc : List α),
      (∀ (qp : QueryParams) (i : Nat), j ≤ i → i < j + n →
        lookupParam qp "page" = some (Nat.repr i) →
        server qp = .http 200 (dumps i) { items := pages i, hasMore := true }) →
      (∀ qp : QueryParams, lookupParam qp "page" = some (Nat.repr (j + n)) →
        (∃ e, server qp = .transportErr e) ∨
        (∃ s d b, server qp = .http s d b ∧ isError s = true)) →
      n < fuel → lookupParam params "page" = some (Nat.repr j) →
      ∃ e, (fetchLoop server onErr fuel params j acc).2
        = .err (acc ++ catPages pages (List.range' j n)) e := by
  intro n
  induction n with
  | zero =>
    intro fuel j params acc hgood hfail hfuel hpage
    cases fuel with
    | zero => omega
    | succ f =>
      have hpage0 : lookupParam params "page" = some (Nat.repr (j + 0)) := by
        simpa using hpage
      rcases hfail params hpage0 with ⟨e, he⟩ | ⟨s, d, b, hsv, hes⟩
      · refine ⟨.transport e, ?_⟩
        rw [fetchLoop, he]
        simp [catPages_nil]
      · refine ⟨onErr s d, ?_⟩
        rw [fetchLoop, hsv]
        simp [hes, catPages_nil]
  | succ m ih =>
    intro fuel j params acc hgood hfail hfuel hpage
    cases fuel with
    | zero => omega
    | succ f =>
      have hsv := hgood params j (Nat.le_refl j) (by omega) hpage
      have he : isError 200 = false := by decide
      have hs : isSuccess 200 = true := by decide
      have hgood2 : ∀ (qp : QueryParams) (i : Nat), j + 1 ≤ i → i < (j + 1) + m →
          lookupParam qp "page" = some (Nat.repr i) →
          server qp = .http 200 (dumps i) { items := pages i, hasMore := true } := by
        intro qp i h1 h2 hq
        exact hgood qp i (by omega) (by omega) hq
      have hfail2 : ∀ qp : QueryParams,
          lookupParam qp "page" = some (Nat.repr ((j + 1) + m)) →
          (∃ e, server qp = .transportErr e) ∨
          (∃ s d b, server qp = .http s d b ∧ isError s = true) := by
        intro qp hq
        have hidx : (j + 1) + m = j + (m + 1) := by omega
        rw [hidx] at hq
        exact hfail qp hq
      have rec := ih f (j + 1) (setParam params "page" (Nat.repr (j + 1)))
        (acc ++ pages j) hgood2 hfail2 (by omega)
        (lookupParam_setParam_same params "page" (Nat.repr (j + 1)))
      obtain ⟨e, hrec⟩ := rec
      refine ⟨e, ?_⟩
      have hrange : List.range' j (m + 1) = j :: List.range' (j + 1) m := by
        rw [List.range'_succ]
      rw [fetchLoop, hsv]
      simp only [he, hs, if_false, if_true, Bool.false_eq_true, hrange, catPages_cons]
      rw [← List.append_assoc]
      exact hrec

/-- Corollary of `fetchLoop_goodRun` for a loop started at page 1 with
an empty accumulator, as every list operation starts it. -/
theorem fetchLoop_goodRun_start {α : Type} (server : QueryParams → ReqResult (Page α))
    (onErr : Nat → String → JError) (pages : Nat → List α) (dumps : Nat → String)
    (k : Nat) (hk : 1 ≤ k)
    (hserver : ∀ (qp : QueryParams) (i : Nat), 1 ≤ i → i ≤ k →
      lookupParam qp "page" = some (Nat.repr i) →
      server qp = .http 200 (dumps i) { items := pages i, hasMore := decide (i < k) })
    (fuel : Nat) (hfuel : k - 1 < fuel) (params : QueryParams)
    (hpage : lookupParam params "page" = some "1") :
    (fetchLoop server onErr fuel params 1 []).2
        = .ok (catPages pages (List.range' 1 k))
      ∧ ((fetchLoop server onErr fuel params 1 []).1).length = k
      ∧ ((fetchLoop server onErr fuel params 1 []).1).map
          (fun qp => lookupParam qp "page")
        = (List.range' 1 k).map (fun i => some (Nat.repr i)) := by
  have h := fetchLoop_goodRun server onErr pages dumps k hserver fuel 1 params []
    (Nat.le_refl 1) hk (by omega) hpage
  have hk1 : k + 1 - 1 = k := by omega
  rw [hk1] at h
  refine ⟨by simpa using h.1, ?_, h.2⟩
  have hlen := congrArg List.length h.2
  simpa using hlen

/-- Corollary of `fetchLoop_errRun` for a loop started at page 1 with
an empty accumulator. -/
theorem fetchLoop_errRun_start {α : Type} (server : QueryParams → ReqResult (Page α))
    (onErr : Nat → String → JError) (pages : Nat → List α) (dumps : Nat → String)
    (n : Nat)
    (hgood : ∀ (qp : QueryParams) (i : Nat), 1 ≤ i → i < 1 + n →
      lookupParam qp "page" = some (Nat.repr i) →
      server qp = .http 200 (dumps i) { items := pages i, hasMore := true })
    (hfail : ∀ qp : QueryParams, lookupParam qp "page" = some (Nat.repr (1 + n)) →
      (∃ e, server qp = .transportErr e) ∨
      (∃ s d b, server qp = .http s d b ∧ isError s = true))
    (fuel : Nat) (hfuel : n < fuel) (params : QueryParams)
    (hpage : lookupParam params "page" = some "1") :
    ∃ e, (fetchLoop server onErr fuel params 1 []).2
      = .err (catPages pages (List.range' 1 n)) e := by
  have h := fetchLoop_errRun server onErr pages dumps n fuel 1 params []
    hgood hfail hfuel hpage
  simpa using h

/-- A poll response with an HTTP success status whose body carries the
waiting status. -/
def WaitingResp (r : ReqResult AuthCheckBody) : Prop :=
  ∃ (s : Nat) (d t : String),
    r = .http s d { status := "waiting", token := t } ∧ isSuccess s = true

/-- Consuming a block of waiting responses: each one increments the
retry counter, sleeps once and polls again, as long as the counter
stays below the bound. -/
theorem getApiTokenLoop_waitPrefix :
    ∀ (ws : List (ReqResult AuthCheckBody)) (retries : Nat)
      (rest : List (ReqResult AuthCheckBody)),
      (∀ r ∈ ws, WaitingResp r) → retries + ws.length < retriesGetApiToken →
      getApiTokenLoop (ws ++ rest) retries
        = ((getApiTokenLoop rest (retries + ws.length)).1,
           (getApiTokenLoop rest (retries + ws.length)).2.1 + ws.length,
           (getApiTokenLoop rest (retries + ws.length)).2.2 + ws.length) := by
  intro ws
  induction ws with
  | nil =>
    intro retries rest hw hb
    simp
  | cons r ws ih =>
    intro retries rest hw hb
    obtain ⟨s, d, t, hr, hs⟩ := hw r (List.mem_cons_self r ws)
    subst hr
    have he : isError s = false := isError_of_isSuccess hs
    have hb2 : (retries + 1) + ws.length < retriesGetApiToken := by
      simp only [List.length_cons] at hb
      omega
    have hretry : retries + 1 < retriesGetApiToken := by
      simp only [List.length_cons] at hb
      omega
    have hwa : (("waiting" : String) == "accepted") = false := by decide
    have hwr : (("waiting" : String) == "rejected") = false := by decide
    have hww : (("waiting" : String) == "waiting") = true := by decide
    rw [List.cons_append, getApiTokenLoop]
    simp only [he, hs, hwa, hwr, hww, Bool.false_eq_true, if_false,
      eq_self_iff_true, if_true]
    rw [if_pos hretry]
    rw [ih (retries + 1) rest (fun r hr => hw r (List.mem_cons_of_mem _ hr)) hb2]
    have hidx : retries + 1 + ws.length = retries + (ws.length + 1) := by omega
    rw [hidx]
    simp [List.length_cons, Nat.add_assoc]

/-- A run that sees only waiting responses exhausts the retry bound:
exactly 20 polls are issued with 19 sleeps between them, ending in the
terminal noAnswer failure. -/
theorem getApiTokenLoop_allWaiting (polls : List (ReqResult AuthCheckBody))
    (hw : ∀ r ∈ polls, WaitingResp r) (h20 : 20 ≤ polls.length) :
    getApiTokenLoop polls 0 = (some (.error .noAnswer), 20, 19) := by
  have hsplit : polls.take 19 ++ polls.drop 19 = polls := List.take_append_drop 19 polls
  have hlen : (polls.take 19).length = 19 := by
    rw [List.length_take]
    exact Nat.min_eq_left (by omega)
  have hw1 : ∀ r ∈ polls.take 19, WaitingResp r :=
    fun r hr => hw r (List.take_subset 19 polls hr)
  obtain ⟨r, tail, hd⟩ : ∃ r tail, polls.drop 19 = r :: tail := by
    cases hdd : polls.drop 19 with
    | nil =>
      have hh := List.length_drop 19 polls
      rw [hdd] at hh
      simp at hh
      omega
    | cons r tail => exact ⟨r, tail, rfl⟩
  have hwr : WaitingResp r :=
    hw r (List.drop_subset 19 polls (by rw [hd]; exact List.mem_cons_self r tail))
  obtain ⟨s, d, t, hr, hs⟩ := hwr
  have he : isError s = false := isError_of_isSuccess hs
  have hwa : (("waiting" : String) == "accepted") = false := by decide
  have hwre : (("waiting" : String) == "rejected") = false := by decide
  have hww : (("waiting" : String) == "waiting") = true := by decide
  rw [← hsplit,
    getApiTokenLoop_waitPrefix (polls.take 19) 0 (polls.drop 19) hw1
      (by rw [hlen]; decide)]
  rw [hd, hr, getApiTokenLoop]
  simp only [he, hs, hwa, hwre, hww, Bool.false_eq_true, if_false,
    eq_self_iff_true, if_true, hlen]
  rw [if_neg (by decide)]

/-- N waiting responses followed by one accepted response: success
after N+1 polls with N sleeps, returning the carried token. -/
theorem getApiTokenLoop_waitThenAccepted (ws : List (ReqResult AuthCheckBody))
    (hw : ∀ r ∈ ws, WaitingResp r) (hn : ws.length + 1 ≤ 20)
    (s : Nat) (hs : isSuccess s = true) (d tok : String) :
    getApiTokenLoop (ws ++ [.http s d { status := "accepted", token := tok }]) 0
      = (some (.ok tok), ws.length + 1, ws.length) := by
  have he : isError s = false := isError_of_isSuccess hs
  have haa : (("accepted" : String) == "accepted") = true := by decide
  rw [getApiTokenLoop_waitPrefix ws 0 _ hw
    (by simp only [retriesGetApiToken]; omega)]
  rw [getApiTokenLoop]
  simp only [he, hs, haa, Bool.false_eq_true, if_false, eq_self_iff_true, if_true]
  simp [Nat.add_comm]

/-- A key other than order_by and order_dir reads through the ordered
list parameter construction. -/
theorem lookup_buildListParams_of_ne (base : QueryParams) (orderBy orderDir key : String)
    (h1 : key ≠ "order_by") (h2 : key ≠ "order_dir") :
    lookupParam (buildListParams base orderBy orderDir) key = lookupParam base key := by
  have e1 : ∀ qp : QueryParams,
      lookupParam (setParam qp "order_by" orderBy) key = lookupParam qp key :=
    fun qp => lookupParam_setParam_ne qp "order_by" key orderBy (Ne.symm h1)
  have e2 : ∀ (qp : QueryParams) (v : String),
      lookupParam (setParam qp "order_dir" v) key = lookupParam qp key :=
    fun qp v => lookupParam_setParam_ne qp "order_dir" key v (Ne.symm h2)
  by_cases hb : (orderBy.length != 0) = true <;>
    by_cases hd : (orderDir.length != 0) = true <;>
      simp [buildListParams, hb, hd, e1, e2]

/-- A non-empty order direction is stored upper-cased. -/
theorem lookup_buildListParams_orderDir (base : QueryParams) (orderBy orderDir : String)
    (hd : orderDir.length ≠ 0) :
    lookupParam (buildListParams base orderBy orderDir) "order_dir"
      = some (strToUpper orderDir) := by
  have hd2 : (orderDir.length != 0) = true := bne_iff_ne.mpr hd
  by_cases hb : (orderBy.length != 0) = true <;>
    simp [buildListParams, hb, hd2, lookupParam_setParam_same]

/-- A non-empty order-by field is stored verbatim. -/
theorem lookup_buildListParams_orderBy (base : QueryParams) (orderBy orderDir : String)
    (hbne : orderBy.length ≠ 0) :
    lookupParam (buildListParams base orderBy orderDir) "order_by" = some orderBy := by
  have hb2 : (orderBy.length != 0) = true := bne_iff_ne.mpr hbne
  have e2 : ∀ (qp : QueryParams) (v : String),
      lookupParam (setParam qp "order_dir" v) "order_by" = lookupParam qp "order_by" :=
    fun qp v => lookupParam_setParam_ne qp "order_dir" "order_by" v (by decide)
  by_cases hd : (orderDir.length != 0) = true <;>
    simp [buildListParams, hb2, hd, e2, lookupParam_setParam_same]

/-- An empty order-by argument adds no order_by entry. -/
theorem lookup_buildListParams_orderBy_none (base : QueryParams) (orderBy orderDir : String)
    (hb : orderBy.length = 0) (hbase : lookupParam base "order_by" = none) :
    lookupParam (buildListParams base orderBy orderDir) "order_by" = none := by
  have hb2 : (orderBy.length != 0) = false := by simp [hb]
  have e2 : ∀ (qp : QueryParams) (v : String),
      lookupParam (setParam qp "order_dir" v) "order_by" = lookupParam qp "order_by" :=
    fun qp v => lookupParam_setParam_ne qp "order_dir" "order_by" v (by decide)
  by_cases hd : (orderDir.length != 0) = true <;>
    simp [buildListParams, hb2, hd, e2, hbase]

/-- An empty order direction adds no order_dir entry. -/
theorem lookup_buildListParams_orderDir_none (base : QueryParams) (orderBy orderDir : String)
    (hd : orderDir.length = 0) (hbase : lookupParam base "order_dir" = none) :
    lookupParam (buildListParams base orderBy orderDir) "order_dir" = none := by
  have hd2 : (orderDir.length != 0) = false := by simp [hd]
  have e1 : ∀ qp : QueryParams,
      lookupParam (setParam qp "order_by" orderBy) "order_dir" = lookupParam qp "order_dir" :=
    fun qp => lookupParam_setParam_ne qp "order_by" "order_dir" orderBy (by decide)
  by_cases hb : (orderBy.length != 0) = true <;>
    simp [buildListParams, hb, hd2, e1, hbase]

/-- The Search parameter construction binds page to 1. -/
theorem lookup_searchParams_page (token query queryType fields : String) :
    lookupParam (searchParams token query queryType fields) "page" = some "1" := by
  have e1 : ∀ qp : QueryParams,
      lookupParam (setParam qp "type" queryType) "page" = lookupParam qp "page" :=
    fun qp => lookupParam_setParam_ne qp "type" "page" queryType (by decide)
  have e2 : ∀ (qp : QueryParams) (v : String),
      lookupParam (setParam qp "fields" v) "page" = lookupParam qp "page" :=
    fun qp v => lookupParam_setParam_ne qp "fields" "page" v (by decide)
  have hbase : lookupParam [("token", token), ("page", "1"), ("query", query)] "page"
      = some "1" := rfl
  by_cases h1 : (queryType.length != 0) = true <;>
    by_cases h2 : (fields.length != 0) = true <;>
      simp [searchParams, h1, h2, e1, e2, hbase]

/-- An empty query type adds no type entry to the Search parameters. -/
theorem lookup_searchParams_type_none (token query queryType fields : String)
    (h : queryType.length = 0) :
    lookupParam (searchParams token query queryType fields) "type" = none := by
  have h1 : (queryType.length != 0) = false := by simp [h]
  have e2 : ∀ (qp : QueryParams) (v : String),
      lookupParam (setParam qp "fields" v) "type" = lookupParam qp "type" :=
    fun qp v => lookupParam_setParam_ne qp "fields" "type" v (by decide)
  have hbase : lookupParam [("token", token), ("page", "1"), ("query", query)] "type"
      = none := rfl
  by_cases h2 : (fields.length != 0) = true <;>
    simp [searchParams, h1, h2, e2, hbase]

/-- An empty field selector adds no fields entry to the Search
parameters. -/
theorem lookup_searchParams_fields_none (token query queryType fields : String)
    (h : fields.length = 0) :
    lookupParam (searchParams token query queryType fields) "fields" = none := by
  have h2 : (fields.length != 0) = false := by simp [h]
  have e1 : ∀ qp : QueryParams,
      lookupParam (setParam qp "type" queryType) "fields" = lookupParam qp "fields" :=
    fun qp => lookupParam_setParam_ne qp "type" "fields" queryType (by decide)
  have hbase : lookupParam [("token", token), ("page", "1"), ("query", query)] "fields"
      = none := rfl
  by_cases h1 : (queryType.length != 0) = true <;>
    simp [searchParams, h1, h2, e1, hbase]

/-- The success branch of the scan probes no further port and any
client it hands back carries exactly the found port. -/
theorem onPortFound_spec (env : NewEnv) (c : Client) (p : Nat) :
    (onPortFound env c p).1 = [p]
    ∧ ∀ (cl : Client) (e : Option JError),
        (onPortFound env c p).2 = some (some cl, e) → cl.port = p := by
  unfold onPortFound
  by_cases ht : (c.apiToken.length == 0) = true
  · rw [if_pos ht]
    cases hga : getAuthToken env.authResp with
    | error e =>
      refine ⟨rfl, ?_⟩
      intro cl e2 h
      simp at h
    | ok tok =>
      rcases hat : getApiToken tok env.polls with ⟨res, pn, sn⟩
      simp only [hat]
      rcases res with _ | res2
      · exact ⟨rfl, by intro cl e2 h; simp at h⟩
      · rcases res2 with e | t2
        · exact ⟨rfl, by intro cl e2 h; simp at h⟩
        · refine ⟨rfl, ?_⟩
          intro cl e2 h
          simp only [Option.some.injEq, Prod.mk.injEq] at h
          rw [← h.1]
  · rw [if_neg ht]
    refine ⟨rfl, ?_⟩
    intro cl e2 h
    simp only [Option.some.injEq, Prod.mk.injEq] at h
    rw [← h.1]

/-- Scanning a port window that contains a first succeeding port P
(everything below P fails) probes exactly the ports up to P and stops;
any returned client carries port P. -/
theorem scanLoop_firstSuccess (env : NewEnv) (P : Nat)
    (hP : ∃ s d b, env.probe P = .http s d b ∧ isSuccess s = true) :
    ∀ (n a : Nat) (c : Client) (retErr : Option JError),
      a ≤ P → P < a + n →
      (∀ q, a ≤ q → q < P →
        ∀ s d b, env.probe q = .http s d b → isSuccess s = false) →
      (scanLoop env (List.range' a n) c retErr).1 = List.range' a (P + 1 - a)
      ∧ ∀ (cl : Client) (e : Option JError),
          (scanLoop env (List.range' a n) c retErr).2 = some (some cl, e) →
          cl.port = P := by
  intro n
  induction n with
  | zero => intro a c retErr h1 h2 h3; omega
  | succ m ih =>
    intro a c retErr h1 h2 h3
    rw [List.range'_succ]
    by_cases haP : a = P
    · subst haP
      obtain ⟨s, d, b, hpr, hs⟩ := hP
      have he : isError s = false := isError_of_isSuccess hs
      have hrange : List.range' a (a + 1 - a) = [a] := by
        have h9 : a + 1 - a = 1 := by omega
        rw [h9, List.range'_one]
      rw [hrange, scanLoop, hpr]
      simp only [he, hs, Bool.false_eq_true, if_false, eq_self_iff_true, if_true]
      exact onPortFound_spec env c a
    · have haP2 : a < P := by omega
      have hidx : P + 1 - (a + 1) = P - a := by omega
      have hrange : List.range' a (P + 1 - a) = a :: List.range' (a + 1) (P - a) := by
        have h9 : P + 1 - a = (P - a) + 1 := by omega
        rw [h9, List.range'_succ]
      cases hpr : env.probe a with
      | transportErr e =>
        have hrec := ih (a + 1) c (some (.transport e)) (by omega) (by omega)
          (fun q hq1 hq2 => h3 q (by omega) hq2)
        rw [hidx] at hrec
        constructor
        · rw [scanLoop, hpr, hrange]
          simp [hrec.1]
        · intro cl e2 h
          rw [scanLoop, hpr] at h
          exact hrec.2 cl e2 h
      | http s2 d2 b2 =>
        have hns : isSuccess s2 = false := h3 a (Nat.le_refl a) haP2 s2 d2 b2 hpr
        by_cases he2 : isError s2 = true
        · have hrec := ih (a + 1) c none (by omega) (by omega)
            (fun q hq1 hq2 => h3 q (by omega) hq2)
          rw [hidx] at hrec
          constructor
          · rw [scanLoop, hpr, hrange]
            simp [he2, hrec.1]
          · intro cl e2 h
            rw [scanLoop, hpr] at h
            simp only [he2, if_true] at h
            exact hrec.2 cl e2 h
        · have hrec := ih (a + 1) c retErr (by omega) (by omega)
            (fun q hq1 hq2 => h3 q (by omega) hq2)
          rw [hidx] at hrec
          constructor
          · rw [scanLoop, hpr, hrange]
            simp [he2, hns, hrec.1]
          · intro cl e2 h
            rw [scanLoop, hpr] at h
            simp only [he2, hns, Bool.false_eq_true, if_false] at h
            exact hrec.2 cl e2 h

/-- Requests issued through the ordered list parameter construction
carry the order directives of the call. -/
theorem fetchLog_order {α : Type} (server : QueryParams → ReqResult (Page α))
    (onErr : Nat → String → JError) (base : QueryParams) (orderBy orderDir : String)
    (fuel : Nat) (qp : QueryParams)
    (hqp : qp ∈ (fetchLoop server onErr fuel
      (buildListParams base orderBy orderDir) 1 []).1) :
    (orderDir.length ≠ 0 → lookupParam qp "order_dir" = some (strToUpper orderDir))
    ∧ (orderBy.length ≠ 0 → lookupParam qp "order_by" = some orderBy) := by
  constructor
  · intro hd
    rw [fetchLoop_log_lookup server onErr "order_dir" (by decide) fuel _ 1 [] qp hqp,
      lookup_buildListParams_orderDir _ _ _ hd]
  · intro hb
    rw [fetchLoop_log_lookup server onErr "order_by" (by decide) fuel _ 1 [] qp hqp,
      lookup_buildListParams_orderBy _ _ _ hb]

/-- Requests issued through the ordered list parameter construction
omit the order directives when the arguments are empty. -/
theorem fetchLog_order_none {α : Type} (server : QueryParams → ReqResult (Page α))
    (onErr : Nat → String → JError) (base : QueryParams) (orderBy orderDir : String)
    (hby : lookupParam base "order_by" = none)
    (hbd : lookupParam base "order_dir" = none)
    (fuel : Nat) (qp : QueryParams)
    (hqp : qp ∈ (fetchLoop server onErr fuel
      (buildListParams base orderBy orderDir) 1 []).1) :
    (orderBy.length = 0 → lookupParam qp "order_by" = none)
    ∧ (orderDir.length = 0 → lookupParam qp "order_dir" = none) := by
  constructor
  · intro hb
    rw [fetchLoop_log_lookup server onErr "order_by" (by decide) fuel _ 1 [] qp hqp,
      lookup_buildListParams_orderBy_none _ _ _ hb hby]
  · intro hd
    rw [fetchLoop_log_lookup server onErr "order_dir" (by decide) fuel _ 1 [] qp hqp,
      lookup_buildListParams_orderDir_none _ _ _ hd hbd]

/-- Requests issued by a Search run omit the type and fields entries
when the corresponding arguments are empty. -/
theorem fetchLog_search_none {α : Type} (server : QueryParams → ReqResult (Page α))
    (onErr : Nat → String → JError) (token query queryType fields : String)
    (fuel : Nat) (qp : QueryParams)
    (hqp : qp ∈ (fetchLoop server onErr fuel
      (searchParams token query queryType fields) 1 []).1) :
    (queryType.length = 0 → lookupParam qp "type" = none)
    ∧ (fields.length = 0 → lookupParam qp "fields" = none) := by
  constructor
  · intro ht
    rw [fetchLoop_log_lookup server onErr "type" (by decide) fuel _ 1 [] qp hqp,
      lookup_searchParams_type_none _ _ _ _ ht]
  · intro hf
    rw [fetchLoop_log_lookup server onErr "fields" (by decide) fuel _ 1 [] qp hqp,
      lookup_searchParams_fields_none _ _ _ _ hf]

/-- C1: for every run of a list operation (GetAllNotes, GetAllTags,
GetNotesByTag, GetNotesInFolder, GetAllFolders, Search) in which the
server returns successful pages 1..k-1 with has_more true and page k
with has_more false, the single call issues exactly k requests whose
page query parameter takes the values 1,2,...,k in that order, and
returns the concatenation of the pages in server order with no
error. -/
theorem claim_C1_paginationWalk :
    (∀ (c : Client) (fields orderBy orderDir : String)
      (server : QueryParams → ReqResult (Page Note))
      (pages : Nat → List Note) (dumps : Nat → String) (k fuel : Nat),
      1 ≤ k →
      (∀ (qp : QueryParams) (i : Nat), 1 ≤ i → i ≤ k →
        lookupParam qp "page" = some (Nat.repr i) →
        server qp = .http 200 (dumps i) { items := pages i, hasMore := decide (i < k) }) →
      k - 1 < fuel →
      (GetAllNotes c fields orderBy orderDir server fuel).2.2
          = .ok (catPages pages (List.range' 1 k))
        ∧ ((GetAllNotes c fields orderBy orderDir server fuel).2.1).length = k
        ∧ ((GetAllNotes c fields orderBy orderDir server fuel).2.1).map
            (fun qp => lookupParam qp "page")
          = (List.range' 1 k).map (fun i => some (Nat.repr i)))
    ∧ (∀ (c : Client) (orderBy orderDir : String)
      (server : QueryParams → ReqResult (Page Tag))
      (pages : Nat → List Tag) (dumps : Nat → String) (k fuel : Nat),
      1 ≤ k →
      (∀ (qp : QueryParams) (i : Nat), 1 ≤ i → i ≤ k →
        lookupParam qp "page" = some (Nat.repr i) →
        server qp = .http 200 (dumps i) { items := pages i, hasMore := decide (i < k) }) →
      k - 1 < fuel →
      (GetAllTags c orderBy orderDir server fuel).2.2
          = .ok (catPages pages (List.range' 1 k))
        ∧ ((GetAllTags c orderBy orderDir server fuel).2.1).length = k
        ∧ ((GetAllTags c orderBy orderDir server fuel).2.1).map
            (fun qp => lookupParam qp "page")
          = (List.range' 1 k).map (fun i => some (Nat.repr i)))
    ∧ (∀ (c : Client) (id orderBy orderDir : String)
      (server : QueryParams → ReqResult (Page Note))
      (pages : Nat → List Note) (dumps : Nat → String) (k fuel : Nat),
      1 ≤ k →
      (∀ (qp : QueryParams) (i : Nat), 1 ≤ i → i ≤ k →
        lookupParam qp "page" = some (Nat.repr i) →
        server qp = .http 200 (dumps i) { items := pages i, hasMore := decide (i < k) }) →
      k - 1 < fuel →
      (GetNotesByTag c id orderBy orderDir server fuel).2.2
          = .ok (catPages pages (List.range' 1 k))
        ∧ ((GetNotesByTag c id orderBy orderDir server fuel).2.1).length = k
        ∧ ((GetNotesByTag c id orderBy orderDir server fuel).2.1).map
            (fun qp => lookupParam qp "page")
          = (List.range' 1 k).map (fun i => some (Nat.repr i)))
    ∧ (∀ (c : Client) (id fields orderBy orderDir : String)
      (server : QueryParams → ReqResult (Page Note))
      (pages : Nat → List Note) (dumps : Nat → String) (k fuel : Nat),
      1 ≤ k →
      (∀ (qp : QueryParams) (i : Nat), 1 ≤ i → i ≤ k →
        lookupParam qp "page" = some (Nat.repr i) →
        server qp = .http 200 (dumps i) { items := pages i, hasMore := decide (i < k) }) →
      k - 1 < fuel →
      (GetNotesInFolder c id fields orderBy orderDir server fuel).2.2
          = .ok (catPages pages (List.range' 1 k))
        ∧ ((GetNotesInFolder c id fields orderBy orderDir server fuel).2.1).length = k
        ∧ ((GetNotesInFolder c id fields orderBy orderDir server fuel).2.1).map
            (fun qp => lookupParam qp "page")
          = (List.range' 1 k).map (fun i => some (Nat.repr i)))
    ∧ (∀ (c : Client) (fields orderBy orderDir : String)
      (server : QueryParams → ReqResult (Page Folder))
      (pages : Nat → List Folder) (dumps : Nat → String) (k fuel : Nat),
      1 ≤ k →
      (∀ (qp : QueryParams) (i : Nat), 1 ≤ i → i ≤ k →
        lookupParam qp "page" = some (Nat.repr i) →
        server qp = .http 200 (dumps i) { items := pages i, hasMore := decide (i < k) }) →
      k - 1 < fuel →
      (GetAllFolders c fields orderBy orderDir server fuel).2.2
          = .ok (catPages pages (List.range' 1 k))
        ∧ ((GetAllFolders c fields orderBy orderDir server fuel).2.1).length = k
        ∧ ((GetAllFolders c fields orderBy orderDir server fuel).2.1).map
            (fun qp => lookupParam qp "page")
          = (List.range' 1 k).map (fun i => some (Nat.repr i)))
    ∧ (∀ (c : Client) (query queryType fields : String)
      (server : QueryParams → ReqResult (Page Item))
      (pages : Nat → List Item) (dumps : Nat → String) (k fuel : Nat),
      1 ≤ k →
      (∀ (qp : QueryParams) (i : Nat), 1 ≤ i → i ≤ k →
        lookupParam qp "page" = some (Nat.repr i) →
        server qp = .http 200 (dumps i) { items := pages i, hasMore := decide (i < k) }) →
      k - 1 < fuel →
      (Search c query queryType fields server fuel).2.2
          = .ok (catPages pages (List.range' 1 k))
        ∧ ((Search c query queryType fields server fuel).2.1).length = k
        ∧ ((Search c query queryType fields server fuel).2.1).map
            (fun qp => lookupParam qp "page")
          = (List.range' 1 k).map (fun i => some (Nat.repr i))) := by
  refine ⟨?_, ?_, ?_, ?_, ?_, ?_⟩
  · intro c fields orderBy orderDir server pages dumps k fuel hk hsv hf
    exact fetchLoop_goodRun_start server (fun _status dump => .errorResponse dump)
      pages dumps k hk hsv fuel hf
      (buildListParams [("token", c.apiToken), ("fields", fields), ("page", "1")]
        orderBy orderDir)
      (by rw [lookup_buildListParams_of_ne _ _ _ _ (by decide) (by decide)]; rfl)
  · intro c orderBy orderDir server pages dumps k fuel hk hsv hf
    exact fetchLoop_goodRun_start server (fun _status dump => .errorResponse dump)
      pages dumps k hk hsv fuel hf
      (buildListParams
        [("token", c.apiToken), ("fields", "id,parent_id,title"), ("page", "1")]
        orderBy orderDir)
      (by rw [lookup_buildListParams_of_ne _ _ _ _ (by decide) (by decide)]; rfl)
  · intro c id orderBy orderDir server pages dumps k fuel hk hsv hf
    exact fetchLoop_goodRun_start server
      (fun status dump =>
        if status == 404 then .notFound ("could not find note with IDs \x27" ++ id)
        else .errorResponse dump)
      pages dumps k hk hsv fuel hf
      (buildListParams
        [("token", c.apiToken), ("fields", "id,parent_id,title"), ("page", "1")]
        orderBy orderDir)
      (by rw [lookup_buildListParams_of_ne _ _ _ _ (by decide) (by decide)]; rfl)
  · intro c id fields orderBy orderDir server pages dumps k fuel hk hsv hf
    exact fetchLoop_goodRun_start server (fun _status dump => .errorResponse dump)
      pages dumps k hk hsv fuel hf
      (buildListParams [("token", c.apiToken), ("fields", fields), ("page", "1")]
        orderBy orderDir)
      (by rw [lookup_buildListParams_of_ne _ _ _ _ (by decide) (by decide)]; rfl)
  · intro c fields orderBy orderDir server pages dumps k fuel hk hsv hf
    exact fetchLoop_goodRun_start server (fun _status dump => .errorResponse dump)
      pages dumps k hk hsv fuel hf
      (buildListParams [("token", c.apiToken), ("fields", fields), ("page", "1")]
        orderBy orderDir)
      (by rw [lookup_buildListParams_of_ne _ _ _ _ (by decide) (by decide)]; rfl)
  · intro c query queryType fields server pages dumps k fuel hk hsv hf
    exact fetchLoop_goodRun_start server (fun _status dump => .errorResponse dump)
      pages dumps k hk hsv fuel hf
      (searchParams c.apiToken query queryType fields)
      (lookup_searchParams_page c.apiToken query queryType fields)

/-- Note fixtures for the concrete pagination runs. -/
def noteA : Note := { id := "a", parentID := "", title := "A" }

def noteB : Note := { id := "b", parentID := "", title := "B" }

def noteC : Note := { id := "c", parentID := "", title := "C" }

def noteD : Note := { id := "d", parentID := "", title := "D" }

def noteE : Note := { id := "e", parentID := "", title := "E" }

/-- Three-page server of the specification example: pages A,B then C,D
then E with has_more true, true, false. -/
def serverW1 : QueryParams → ReqResult (Page Note) := fun qp =>
  if lookupParam qp "page" = some "2" then
    .http 200 "" { items := [noteC, noteD], hasMore := true }
  else if lookupParam qp "page" = some "3" then
    .http 200 "" { items := [noteE], hasMore := false }
  else .http 200 "" { items := [noteA, noteB], hasMore := true }

/-- Page contents served by `serverW1`. -/
def pagesW1 : Nat → List Note := fun i =>
  if i = 2 then [noteC, noteD] else if i = 3 then [noteE] else [noteA, noteB]

/-- Witness for C1: the three-page example run of the specification. -/
theorem claim_C1_paginationWalk_witness :
    (GetAllNotes { port := 41184, apiToken := "tok" } "id,title" "" "" serverW1 3).2.2
        = .ok [noteA, noteB, noteC, noteD, noteE]
    ∧ ((GetAllNotes { port := 41184, apiToken := "tok" } "id,title" "" "" serverW1 3).2.1).length
        = 3
    ∧ ((GetAllNotes { port := 41184, apiToken := "tok" } "id,title" "" "" serverW1 3).2.1).map
        (fun qp => lookupParam qp "page")
      = [some "1", some "2", some "3"] := by
  have h := claim_C1_paginationWalk.1 { port := 41184, apiToken := "tok" }
    "id,title" "" "" serverW1 pagesW1 (fun _ => "") 3 3 (by omega)
    (by
      intro qp i h1 h3 hp
      interval_cases i
      · rw [show Nat.repr 1 = "1" from rfl] at hp
        simp only [serverW1, hp]
        rw [if_neg (by decide), if_neg (by decide)]
        rfl
      · rw [show Nat.repr 2 = "2" from rfl] at hp
        simp only [serverW1, hp]
        rw [if_pos trivial]
        rfl
      · rw [show Nat.repr 3 = "3" from rfl] at hp
        simp only [serverW1, hp]
        rw [if_neg (by decide), if_pos trivial]
        rfl)
    (by omega)
  exact h

/-- C2: a poll sequence of only waiting responses makes getApiToken
fail after exactly 20 polls with the noAnswer error, sleeping once
between consecutive polls (19 sleeps for 20 polls); and N waiting
responses followed by one accepted response make it succeed after
exactly N+1 polls (N sleeps), returning the token carried by the
accepted response, whenever N+1 is at most 20. -/
theorem claim_C2_pollBounds :
    (∀ (authToken : String) (polls : List (ReqResult AuthCheckBody)),
      (∀ r ∈ polls, WaitingResp r) → 20 ≤ polls.length →
      getApiToken authToken polls = (some (.error .noAnswer), 20, 19))
    ∧ (∀ (authToken : String) (ws : List (ReqResult AuthCheckBody)),
      (∀ r ∈ ws, WaitingResp r) → ws.length + 1 ≤ 20 →
      ∀ (s : Nat), isSuccess s = true → ∀ (d tok : String),
      getApiToken authToken
          (ws ++ [.http s d { status := "accepted", token := tok }])
        = (some (.ok tok), ws.length + 1, ws.length)) := by
  constructor
  · intro _a polls hw h20
    exact getApiTokenLoop_allWaiting polls hw h20
  · intro _a ws hw hn s hs d tok
    exact getApiTokenLoop_waitThenAccepted ws hw hn s hs d tok

/-- A waiting poll response fixture. -/
def waitingW : ReqResult AuthCheckBody :=
  .http 200 "" { status := "waiting", token := "" }

/-- Witness for C2: twenty waiting responses exhaust the bound; two
waiting responses and an accepted one succeed at the third poll. -/
theorem claim_C2_pollBounds_witness :
    getApiToken "auth" (List.replicate 20 waitingW)
        = (some (.error .noAnswer), 20, 19)
    ∧ getApiToken "auth" (List.replicate 2 waitingW
          ++ [.http 200 "" { status := "accepted", token := "T" }])
      = (some (.ok "T"), 3, 2) := by
  constructor
  · exact claim_C2_pollBounds.1 "auth" _
      (fun r hr => by
        rw [List.eq_of_mem_replicate hr]
        exact ⟨200, "", "", rfl, by decide⟩)
      (by simp)
  · have h := claim_C2_pollBounds.2 "auth" (List.replicate 2 waitingW)
      (fun r hr => by
        rw [List.eq_of_mem_replicate hr]
        exact ⟨200, "", "", rfl, by decide⟩)
      (by simp) 200 (by decide) "" "T"
    simpa using h

/-- A poll response with a success status and an unrecognized body
status value. -/
def pendingPollResp : ReqResult AuthCheckBody :=
  .http 200 "" { status := "pending", token := "" }

/-- C3 evidence: a success response whose status field is none of
accepted, rejected or waiting does not terminate the negotiation; the
loop consumes it and polls again without touching the retry counter,
for any number of such responses (so the source loop never exits).
This contradicts the claim, which expects a terminal failure. -/
theorem claim_C3_unknownStatusKeepsPolling :
    ∀ n : Nat,
      getApiToken "auth" (List.replicate n pendingPollResp) = (none, n, 0) := by
  have key : ∀ n : Nat,
      getApiTokenLoop
          (List.replicate n (ReqResult.http 200 "" { status := "pending", token := "" })) 0
        = (none, n, 0) := by
    intro n
    induction n with
    | zero => rfl
    | succ m ih =>
      have h1 : (("pending" : String) == "accepted") = false := by decide
      have h2 : (("pending" : String) == "rejected") = false := by decide
      have h3 : (("pending" : String) == "waiting") = false := by decide
      have he : isError 200 = false := by decide
      have hs : isSuccess 200 = true := by decide
      rw [List.replicate_succ, getApiTokenLoop]
      simp only [h1, h2, h3, he, hs, Bool.false_eq_true, if_false,
        eq_self_iff_true, if_true, ih]
  exact fun n => key n

/-- Environment in which every candidate port answers the ping with an
HTTP 500 error. -/
def allErrorEnv : NewEnv :=
  { probe := fun _ => .http 500 "dump" ""
    authResp := .transportErr ""
    polls := [] }

/-- C4 evidence: when every port in 41184..41194 answers the probe
with an HTTP error status, New probes all 11 ports and returns a nil
client together with a nil error: the IsError branch stores the nil
transport error (retErr = err with err nil), silently dropping the
last-seen failure, against the claim that a non-nil error is
returned. -/
theorem claim_C4_allPortsFailNilError :
    New "tok" allErrorEnv = (List.range' 41184 11, some (none, none)) := by
  rfl

/-- C5: New probes candidate ports in ascending order from 41184, and
when P is the first port in range whose ping probe has an HTTP success
status, the probe log is exactly 41184..P (nothing after P is probed)
and any client New hands back carries port P. -/
theorem claim_C5_firstSuccessWins (apiToken : String) (env : NewEnv) (P : Nat)
    (h1 : joplinMinPortNum ≤ P) (h2 : P ≤ joplinMaxPortNum)
    (hbefore : ∀ q, joplinMinPortNum ≤ q → q < P →
      ∀ s d b, env.probe q = .http s d b → isSuccess s = false)
    (hP : ∃ s d b, env.probe P = .http s d b ∧ isSuccess s = true) :
    (New apiToken env).1 = List.range' joplinMinPortNum (P + 1 - joplinMinPortNum)
    ∧ ∀ (cl : Client) (e : Option JError),
        (New apiToken env).2 = some (some cl, e) → cl.port = P := by
  have hb : P < joplinMinPortNum + (joplinMaxPortNum + 1 - joplinMinPortNum) := by
    simp only [joplinMinPortNum, joplinMaxPortNum] at h2 ⊢
    omega
  exact scanLoop_firstSuccess env P hP (joplinMaxPortNum + 1 - joplinMinPortNum)
    joplinMinPortNum { port := 0, apiToken := apiToken } none h1 hb hbefore

/-- Environment in which only port 41185 answers the ping with a
success. -/
def portEnvW : NewEnv :=
  { probe := fun q =>
      if q = 41185 then .http 200 "" "pong" else .http 500 "" ""
    authResp := .transportErr ""
    polls := [] }

/-- Witness for C5: with success only on 41185, exactly ports 41184
and 41185 are probed and the returned client carries port 41185. -/
theorem claim_C5_firstSuccessWins_witness :
    (New "tok" portEnvW).1 = [41184, 41185]
    ∧ (Client.mk 41185 "tok").port = 41185 := by
  have h := claim_C5_firstSuccessWins "tok" portEnvW 41185 (by decide) (by decide)
    (by
      intro q hq1 hq2 s d b heq
      have hq1b : 41184 ≤ q := by simpa [joplinMinPortNum] using hq1
      have hq : q = 41184 := by omega
      subst hq
      simp only [portEnvW] at heq
      rw [if_neg (by decide)] at heq
      injection heq with hA hB hC
      rw [← hA]
      decide)
    ⟨200, "", "pong", by simp [portEnvW], by decide⟩
  have hNew : (New "tok" portEnvW).2 = some (some (Client.mk 41185 "tok"), none) := by
    rfl
  constructor
  · rw [h.1]
    rfl
  · exact h.2 (Client.mk 41185 "tok") none hNew

/-- C6: when pages 1..j succeed with has_more true and the request for
page j+1 fails (transport error or HTTP error status), every list
operation returns the items accumulated from pages 1..j together with
an error; the partial accumulator is kept. -/
theorem claim_C6_partialOnError :
    (∀ (c : Client) (fields orderBy orderDir : String)
      (server : QueryParams → ReqResult (Page Note))
      (pages : Nat → List Note) (dumps : Nat → String) (j fuel : Nat),
      (∀ (qp : QueryParams) (i : Nat), 1 ≤ i → i < 1 + j →
        lookupParam qp "page" = some (Nat.repr i) →
        server qp = .http 200 (dumps i) { items := pages i, hasMore := true }) →
      (∀ qp : QueryParams, lookupParam qp "page" = some (Nat.repr (1 + j)) →
        (∃ e, server qp = .transportErr e) ∨
        (∃ s d b, server qp = .http s d b ∧ isError s = true)) →
      j < fuel →
      ∃ e, (GetAllNotes c fields orderBy orderDir server fuel).2.2
        = .err (catPages pages (List.range' 1 j)) e)
    ∧ (∀ (c : Client) (orderBy orderDir : String)
      (server : QueryParams → ReqResult (Page Tag))
      (pages : Nat → List Tag) (dumps : Nat → String) (j fuel : Nat),
      (∀ (qp : QueryParams) (i : Nat), 1 ≤ i → i < 1 + j →
        lookupParam qp "page" = some (Nat.repr i) →
        server qp = .http 200 (dumps i) { items := pages i, hasMore := true }) →
      (∀ qp : QueryParams, lookupParam qp "page" = some (Nat.repr (1 + j)) →
        (∃ e, server qp = .transportErr e) ∨
        (∃ s d b, server qp = .http s d b ∧ isError s = true)) →
      j < fuel →
      ∃ e, (GetAllTags c orderBy orderDir server fuel).2.2
        = .err (catPages pages (List.range' 1 j)) e)
    ∧ (∀ (c : Client) (id orderBy orderDir : String)
      (server : QueryParams → ReqResult (Page Note))
      (pages : Nat → List Note) (dumps : Nat → String) (j fuel : Nat),
      (∀ (qp : QueryParams) (i : Nat), 1 ≤ i → i < 1 + j →
        lookupParam qp "page" = some (Nat.repr i) →
        server qp = .http 200 (dumps i) { items := pages i, hasMore := true }) →
      (∀ qp : QueryParams, lookupParam qp "page" = some (Nat.repr (1 + j)) →
        (∃ e, server qp = .transportErr e) ∨
        (∃ s d b, server qp = .http s d b ∧ isError s = true)) →
      j < fuel →
      ∃ e, (GetNotesByTag c id orderBy orderDir server fuel).2.2
        = .err (catPages pages (List.range' 1 j)) e)
    ∧ (∀ (c : Client) (id fields orderBy orderDir : String)
      (server : QueryParams → ReqResult (Page Note))
      (pages : Nat → List Note) (dumps : Nat → String) (j fuel : Nat),
      (∀ (qp : QueryParams) (i : Nat), 1 ≤ i → i < 1 + j →
        lookupParam qp "page" = some (Nat.repr i) →
        server qp = .http 200 (dumps i) { items := pages i, hasMore := true }) →
      (∀ qp : QueryParams, lookupParam qp "page" = some (Nat.repr (1 + j)) →
        (∃ e, server qp = .transportErr e) ∨
        (∃ s d b, server qp = .http s d b ∧ isError s = true)) →
      j < fuel →
      ∃ e, (GetNotesInFolder c id fields orderBy orderDir server fuel).2.2
        = .err (catPages pages (List.range' 1 j)) e)
    ∧ (∀ (c : Client) (fields orderBy orderDir : String)
      (server : QueryParams → ReqResult (Page Folder))
      (pages : Nat → List Folder) (dumps : Nat → String) (j fuel : Nat),
      (∀ (qp : QueryParams) (i : Nat), 1 ≤ i → i < 1 + j →
        lookupParam qp "page" = some (Nat.repr i) →
        server qp = .http 200 (dumps i) { items := pages i, hasMore := true }) →
      (∀ qp : QueryParams, lookupParam qp "page" = some (Nat.repr (1 + j)) →
        (∃ e, server qp = .transportErr e) ∨
        (∃ s d b, server qp = .http s d b ∧ isError s = true)) →
      j < fuel →
      ∃ e, (GetAllFolders c fields orderBy orderDir server fuel).2.2
        = .err (catPages pages (List.range' 1 j)) e)
    ∧ (∀ (c : Client) (query queryType fields : String)
      (server : QueryParams → ReqResult (Page Item))
      (pages : Nat → List Item) (dumps : Nat → String) (j fuel : Nat),
      (∀ (qp : QueryParams) (i : Nat), 1 ≤ i → i < 1 + j →
        lookupParam qp "page" = some (Nat.repr i) →
        server qp = .http 200 (dumps i) { items := pages i, hasMore := true }) →
      (∀ qp : QueryParams, lookupParam qp "page" = some (Nat.repr (1 + j)) →
        (∃ e, server qp = .transportErr e) ∨
        (∃ s d b, server qp = .http s d b ∧ isError s = true)) →
      j < fuel →
      ∃ e, (Search c query queryType fields server fuel).2.2
        = .err (catPages pages (List.range' 1 j)) e) := by
  refine ⟨?_, ?_, ?_, ?_, ?_, ?_⟩
  · intro c fields orderBy orderDir server pages dumps j fuel hgood hfail hfuel
    exact fetchLoop_errRun_start server (fun _status dump => .errorResponse dump)
      pages dumps j hgood hfail fuel hfuel
      (buildListParams [("token", c.apiToken), ("fields", fields), ("page", "1")]
        orderBy orderDir)
      (by rw [lookup_buildListParams_of_ne _ _ _ _ (by decide) (by decide)]; rfl)
  · intro c orderBy orderDir server pages dumps j fuel hgood hfail hfuel
    exact fetchLoop_errRun_start server (fun _status dump => .errorResponse dump)
      pages dumps j hgood hfail fuel hfuel
      (buildListParams
        [("token", c.apiToken), ("fields", "id,parent_id,title"), ("page", "1")]
        orderBy orderDir)
      (by rw [lookup_buildListParams_of_ne _ _ _ _ (by decide) (by decide)]; rfl)
  · intro c id orderBy orderDir server pages dumps j fuel hgood hfail hfuel
    exact fetchLoop_errRun_start server
      (fun status dump =>
        if status == 404 then .notFound ("could not find note with IDs \x27" ++ id)
        else .errorResponse dump)
      pages dumps j hgood hfail fuel hfuel
      (buildListParams
        [("token", c.apiToken), ("fields", "id,parent_id,title"), ("page", "1")]
        orderBy orderDir)
      (by rw [lookup_buildListParams_of_ne _ _ _ _ (by decide) (by decide)]; rfl)
  · intro c id fields orderBy orderDir server pages dumps j fuel hgood hfail hfuel
    exact fetchLoop_errRun_start server (fun _status dump => .errorResponse dump)
      pages dumps j hgood hfail fuel hfuel
      (buildListParams [("token", c.apiToken), ("fields", fields), ("page", "1")]
        orderBy orderDir)
      (by rw [lookup_buildListParams_of_ne _ _ _ _ (by decide) (by decide)]; rfl)
  · intro c fields orderBy orderDir server pages dumps j fuel hgood hfail hfuel
    exact fetchLoop_errRun_start server (fun _status dump => .errorResponse dump)
      pages dumps j hgood hfail fuel hfuel
      (buildListParams [("token", c.apiToken), ("fields", fields), ("page", "1")]
        orderBy orderDir)
      (by rw [lookup_buildListParams_of_ne _ _ _ _ (by decide) (by decide)]; rfl)
  · intro c query queryType fields server pages dumps j fuel hgood hfail hfuel
    exact fetchLoop_errRun_start server (fun _status dump => .errorResponse dump)
      pages dumps j hgood hfail fuel hfuel
      (searchParams c.apiToken query queryType fields)
      (lookup_searchParams_page c.apiToken query queryType fields)

/-- Server that serves page 1 (A,B with has_more true) and fails page
2 with a transport error. -/
def serverW6 : QueryParams → ReqResult (Page Note) := fun qp =>
  if lookupParam qp "page" = some "2" then .transportErr "boom"
  else .http 200 "" { items := [noteA, noteB], hasMore := true }

/-- Page contents served by `serverW6`. -/
def pagesW6 : Nat → List Note := fun _ => [noteA, noteB]

/-- Witness for C6: page 2 fails with a transport error, the fetch
returns [A,B] plus the error, not an empty list. -/
theorem claim_C6_partialOnError_witness :
    (GetAllNotes { port := 41184, apiToken := "tok" } "id" "" "" serverW6 2).2.2
      = .err [noteA, noteB] (.transport "boom") := by
  obtain ⟨e, he⟩ := claim_C6_partialOnError.1 { port := 41184, apiToken := "tok" }
    "id" "" "" serverW6 pagesW6 (fun _ => "") 1 2
    (by
      intro qp i h1 h2 hp
      have hi : i = 1 := by omega
      subst hi
      rw [show Nat.repr 1 = "1" from rfl] at hp
      simp only [serverW6, hp]
      rw [if_neg (by decide)]
      rfl)
    (by
      intro qp hp
      rw [show Nat.repr (1 + 1) = "2" from rfl] at hp
      refine Or.inl ⟨"boom", ?_⟩
      simp only [serverW6, hp]
      rw [if_pos trivial])
    (by omega)
  have htotal :
      (GetAllNotes { port := 41184, apiToken := "tok" } "id" "" "" serverW6 2).2.2
        = .err [noteA, noteB] (.transport "boom") := rfl
  exact htotal

/-- C7 counterexample: DeleteTag classifies a 404 response with the
same generic errorResponse classification it uses for a 500 response,
so the claim that every resource operation classifies 404 distinctly
fails at DeleteTag. -/
theorem claim_C7_counterexample :
    (DeleteTag { port := 41184, apiToken := "tok" } "abc" (.http 404 "D" ())).2
        = some (.errorResponse "D")
    ∧ (DeleteTag { port := 41184, apiToken := "tok" } "abc" (.http 404 "D" ())).2
        = (DeleteTag { port := 41184, apiToken := "tok" } "abc" (.http 500 "D" ())).2 := by
  exact ⟨rfl, rfl⟩

/-- C7 amended: among the resource operations of the original claim
(get/create/update/delete on tags, notes, folders; tag attach and
detach), GetTag, GetNote, GetFolder, UpdateNote and CreateTag classify
a 404 response distinctly (not found) from the generic classification
they use for any other error status; DeleteTag, DeleteTagFromNote,
CreateTagsNotes, CreateFolder and DeleteFolder instead produce the
generic classification for every error status, classifying 404 the
same as any other error status. -/
theorem claim_C7_notFoundClassification :
    ∀ (c : Client) (id fields title parent_id d : String)
      (bodyT : Tag) (bodyN : Note) (bodyF : Folder) (s : Nat),
      isError s = true → s ≠ 404 →
      (isNotFound (GetTag c id fields (.http 404 d bodyT)).2.2 = true
        ∧ isNotFound (GetTag c id fields (.http s d bodyT)).2.2 = false)
      ∧ (isNotFound (GetNote c id fields (.http 404 d bodyN)).2.2 = true
        ∧ isNotFound (GetNote c id fields (.http s d bodyN)).2.2 = false)
      ∧ (isNotFound (GetFolder c id fields (.http 404 d bodyF)).2.2 = true
        ∧ isNotFound (GetFolder c id fields (.http s d bodyF)).2.2 = false)
      ∧ (isNotFound (UpdateNote c id title parent_id (.http 404 d ())).2 = true
        ∧ isNotFound (UpdateNote c id title parent_id (.http s d ())).2 = false)
      ∧ (isNotFound (CreateTag c title (.http 404 d ())).2 = true
        ∧ isNotFound (CreateTag c title (.http s d ())).2 = false)
      ∧ (isNotFound (DeleteTag c id (.http 404 d ())).2 = false
        ∧ (DeleteTag c id (.http 404 d ())).2 = (DeleteTag c id (.http s d ())).2)
      ∧ (isNotFound (DeleteTagFromNote c id id (.http 404 d ())).2 = false
        ∧ (DeleteTagFromNote c id id (.http 404 d ())).2
            = (DeleteTagFromNote c id id (.http s d ())).2)
      ∧ (isNotFound (CreateTagsNotes c id id (.http 404 d ())).2 = false
        ∧ (CreateTagsNotes c id id (.http 404 d ())).2
            = (CreateTagsNotes c id id (.http s d ())).2)
      ∧ (isNotFound (CreateFolder c title parent_id (.http 404 d ())).2 = false
        ∧ (CreateFolder c title parent_id (.http 404 d ())).2
            = (CreateFolder c title parent_id (.http s d ())).2)
      ∧ (isNotFound (DeleteFolder c id (.http 404 d ())).2 = false
        ∧ (DeleteFolder c id (.http 404 d ())).2
            = (DeleteFolder c id (.http s d ())).2) := by
  intro c id fields title parent_id d bodyT bodyN bodyF s hs h404
  have h4 : (s == 404) = false := beq_eq_false_iff_ne.mpr h404
  have h4e : isError 404 = true := by decide
  refine ⟨⟨rfl, ?_⟩, ⟨rfl, ?_⟩, ⟨rfl, ?_⟩, ⟨rfl, ?_⟩, ⟨rfl, ?_⟩,
    ⟨rfl, ?_⟩, ⟨rfl, ?_⟩, ⟨rfl, ?_⟩, ⟨rfl, ?_⟩, ⟨rfl, ?_⟩⟩
  · simp [GetTag, hs, h4, isNotFound]
  · simp [GetNote, hs, h4, isNotFound]
  · simp [GetFolder, hs, h4, isNotFound]
  · simp [UpdateNote, hs, h4, isNotFound]
  · simp [CreateTag, hs, h4, isNotFound]
  · simp [DeleteTag, hs, h4e]
  · simp [DeleteTagFromNote, hs, h4e]
  · simp [CreateTagsNotes, hs, h4e]
  · simp [CreateFolder, hs, h4e]
  · simp [DeleteFolder, hs, h4e]

/-- Witness for C7 amended, at status 500: GetTag distinguishes 404
from 500; DeleteTag does not classify 404 as not found. -/
theorem claim_C7_notFoundClassification_witness :
    (isNotFound (GetTag { port := 41184, apiToken := "t" } "i" "f"
          (.http 404 "D" zeroTag)).2.2 = true
      ∧ isNotFound (GetTag { port := 41184, apiToken := "t" } "i" "f"
          (.http 500 "D" zeroTag)).2.2 = false) := by
  exact (claim_C7_notFoundClassification { port := 41184, apiToken := "t" }
    "i" "f" "T" "p" "D" zeroTag zeroNote zeroFolder 500 (by decide) (by decide)).1

/-- C8: every request a list call issues carries order_dir equal to
the upper-cased orderDir argument when that argument is non-empty, and
order_by equal to the orderBy argument verbatim when non-empty — for
arbitrary argument strings, with no validation or local sorting. -/
theorem claim_C8_orderingPassThrough :
    (∀ (c : Client) (fields orderBy orderDir : String)
      (server : QueryParams → ReqResult (Page Note)) (fuel : Nat) (qp : QueryParams),
      qp ∈ (GetAllNotes c fields orderBy orderDir server fuel).2.1 →
      (orderDir.length ≠ 0 → lookupParam qp "order_dir" = some (strToUpper orderDir))
      ∧ (orderBy.length ≠ 0 → lookupParam qp "order_by" = some orderBy))
    ∧ (∀ (c : Client) (orderBy orderDir : String)
      (server : QueryParams → ReqResult (Page Tag)) (fuel : Nat) (qp : QueryParams),
      qp ∈ (GetAllTags c orderBy orderDir server fuel).2.1 →
      (orderDir.length ≠ 0 → lookupParam qp "order_dir" = some (strToUpper orderDir))
      ∧ (orderBy.length ≠ 0 → lookupParam qp "order_by" = some orderBy))
    ∧ (∀ (c : Client) (id orderBy orderDir : String)
      (server : QueryParams → ReqResult (Page Note)) (fuel : Nat) (qp : QueryParams),
      qp ∈ (GetNotesByTag c id orderBy orderDir server fuel).2.1 →
      (orderDir.length ≠ 0 → lookupParam qp "order_dir" = some (strToUpper orderDir))
      ∧ (orderBy.length ≠ 0 → lookupParam qp "order_by" = some orderBy))
    ∧ (∀ (c : Client) (id fields orderBy orderDir : String)
      (server : QueryParams → ReqResult (Page Note)) (fuel : Nat) (qp : QueryParams),
      qp ∈ (GetNotesInFolder c id fields orderBy orderDir server fuel).2.1 →
      (orderDir.length ≠ 0 → lookupParam qp "order_dir" = some (strToUpper orderDir))
      ∧ (orderBy.length ≠ 0 → lookupParam qp "order_by" = some orderBy))
    ∧ (∀ (c : Client) (fields orderBy orderDir : String)
      (server : QueryParams → ReqResult (Page Folder)) (fuel : Nat) (qp : QueryParams),
      qp ∈ (GetAllFolders c fields orderBy orderDir server fuel).2.1 →
      (orderDir.length ≠ 0 → lookupParam qp "order_dir" = some (strToUpper orderDir))
      ∧ (orderBy.length ≠ 0 → lookupParam qp "order_by" = some orderBy))
    ∧ (∀ (c : Client) (id orderBy orderDir : String)
      (server : QueryParams → ReqResult (Page Tag)) (fuel : Nat) (qp : QueryParams),
      qp ∈ (GetNoteTags c id orderBy orderDir server fuel).2.1 →
      (orderDir.length ≠ 0 → lookupParam qp "order_dir" = some (strToUpper orderDir))
      ∧ (orderBy.length ≠ 0 → lookupParam qp "order_by" = some orderBy)) := by
  refine ⟨?_, ?_, ?_, ?_, ?_, ?_⟩
  · intro c fields orderBy orderDir server fuel qp hqp
    exact fetchLog_order server (fun _status dump => .errorResponse dump)
      [("token", c.apiToken), ("fields", fields), ("page", "1")]
      orderBy orderDir fuel qp hqp
  · intro c orderBy orderDir server fuel qp hqp
    exact fetchLog_order server (fun _status dump => .errorResponse dump)
      [("token", c.apiToken), ("fields", "id,parent_id,title"), ("page", "1")]
      orderBy orderDir fuel qp hqp
  · intro c id orderBy orderDir server fuel qp hqp
    exact fetchLog_order server
      (fun status dump =>
        if status == 404 then .notFound ("could not find note with IDs \x27" ++ id)
        else .errorResponse dump)
      [("token", c.apiToken), ("fields", "id,parent_id,title"), ("page", "1")]
      orderBy orderDir fuel qp hqp
  · intro c id fields orderBy orderDir server fuel qp hqp
    exact fetchLog_order server (fun _status dump => .errorResponse dump)
      [("token", c.apiToken), ("fields", fields), ("page", "1")]
      orderBy orderDir fuel qp hqp
  · intro c fields orderBy orderDir server fuel qp hqp
    exact fetchLog_order server (fun _status dump => .errorResponse dump)
      [("token", c.apiToken), ("fields", fields), ("page", "1")]
      orderBy orderDir fuel qp hqp
  · intro c id orderBy orderDir server fuel qp hqp
    exact fetchLog_order server
      (fun status dump =>
        if status == 404 then .notFound ("could not find note with IDs \x27" ++ id)
        else .errorResponse dump)
      [("token", c.apiToken), ("fields", "id,parent_id,title"), ("page", "1")]
      orderBy orderDir fuel qp hqp

/-- One-page note server used by the concrete parameter witnesses. -/
def serverW8 : QueryParams → ReqResult (Page Note) := fun _ =>
  .http 200 "" { items := [], hasMore := false }

/-- Witness for C8: a GetAllNotes call with orderDir desc and orderBy
updated_time issues its request with order_dir DESC and order_by
updated_time. -/
theorem claim_C8_orderingPassThrough_witness :
    lookupParam
        (buildListParams [("token", "tok"), ("fields", "id"), ("page", "1")]
          "updated_time" "desc") "order_dir" = some "DESC"
    ∧ lookupParam
        (buildListParams [("token", "tok"), ("fields", "id"), ("page", "1")]
          "updated_time" "desc") "order_by" = some "updated_time" := by
  have h := claim_C8_orderingPassThrough.1 { port := 41184, apiToken := "tok" }
    "id" "updated_time" "desc" serverW8 1
    (buildListParams [("token", "tok"), ("fields", "id"), ("page", "1")]
      "updated_time" "desc")
    (List.mem_singleton.mpr rfl)
  exact ⟨h.1 (by decide), h.2 (by decide)⟩

/-- C9: no operation invoked on a constructed client changes the
client; the port and API token of the endpoint session are read-only
after New. -/
theorem claim_C9_sessionImmutable :
    ∀ (c : Client) (id id2 fields title parent_id orderBy orderDir query queryType : String)
      (respT : ReqResult Tag) (respN : ReqResult Note) (respF : ReqResult Folder)
      (respU : ReqResult Unit)
      (serverN : QueryParams → ReqResult (Page Note))
      (serverT : QueryParams → ReqResult (Page Tag))
      (serverF : QueryParams → ReqResult (Page Folder))
      (serverI : QueryParams → ReqResult (Page Item)) (fuel : Nat),
      (GetTag c id fields respT).1 = c
      ∧ (CreateTag c title respU).1 = c
      ∧ (GetNote c id fields respN).1 = c
      ∧ (UpdateNote c id title parent_id respU).1 = c
      ∧ (GetNotesByTag c id orderBy orderDir serverN fuel).1 = c
      ∧ (GetAllNotes c fields orderBy orderDir serverN fuel).1 = c
      ∧ (GetNotesInFolder c id fields orderBy orderDir serverN fuel).1 = c
      ∧ (GetAllFolders c fields orderBy orderDir serverF fuel).1 = c
      ∧ (GetFolder c id fields respF).1 = c
      ∧ (GetAllTags c orderBy orderDir serverT fuel).1 = c
      ∧ (DeleteTag c id respU).1 = c
      ∧ (DeleteTagFromNote c id id2 respU).1 = c
      ∧ (Search c query queryType fields serverI fuel).1 = c
      ∧ (GetNoteTags c id orderBy orderDir serverT fuel).1 = c
      ∧ (CreateFolder c title parent_id respU).1 = c
      ∧ (DeleteFolder c id respU).1 = c := by
  intro c id id2 fields title parent_id orderBy orderDir query queryType
    respT respN respF respU serverN serverT serverF serverI fuel
  exact ⟨rfl, rfl, rfl, rfl, rfl, rfl, rfl, rfl, rfl, rfl, rfl, rfl, rfl, rfl,
    rfl, rfl⟩

/-- C10: with an empty orderBy every issued request of an ordered list
call has no order_by entry, with an empty orderDir no order_dir entry;
Search likewise omits type when queryType is empty and fields when
fields is empty. -/
theorem claim_C10_emptyParamsOmitted :
    (∀ (c : Client) (fields orderBy orderDir : String)
      (server : QueryParams → ReqResult (Page Note)) (fuel : Nat) (qp : QueryParams),
      qp ∈ (GetAllNotes c fields orderBy orderDir server fuel).2.1 →
      (orderBy.length = 0 → lookupParam qp "order_by" = none)
      ∧ (orderDir.length = 0 → lookupParam qp "order_dir" = none))
    ∧ (∀ (c : Client) (orderBy orderDir : String)
      (server : QueryParams → ReqResult (Page Tag)) (fuel : Nat) (qp : QueryParams),
      qp ∈ (GetAllTags c orderBy orderDir server fuel).2.1 →
      (orderBy.length = 0 → lookupParam qp "order_by" = none)
      ∧ (orderDir.length = 0 → lookupParam qp "order_dir" = none))
    ∧ (∀ (c : Client) (id orderBy orderDir : String)
      (server : QueryParams → ReqResult (Page Note)) (fuel : Nat) (qp : QueryParams),
      qp ∈ (GetNotesByTag c id orderBy orderDir server fuel).2.1 →
      (orderBy.length = 0 → lookupParam qp "order_by" = none)
      ∧ (orderDir.length = 0 → lookupParam qp "order_dir" = none))
    ∧ (∀ (c : Client) (id fields orderBy orderDir : String)
      (server : QueryParams → ReqResult (Page Note)) (fuel : Nat) (qp : QueryParams),
      qp ∈ (GetNotesInFolder c id fields orderBy orderDir server fuel).2.1 →
      (orderBy.length = 0 → lookupParam qp "order_by" = none)
      ∧ (orderDir.length = 0 → lookupParam qp "order_dir" = none))
    ∧ (∀ (c : Client) (fields orderBy orderDir : String)
      (server : QueryParams → ReqResult (Page Folder)) (fuel : Nat) (qp : QueryParams),
      qp ∈ (GetAllFolders c fields orderBy orderDir server fuel).2.1 →
      (orderBy.length = 0 → lookupParam qp "order_by" = none)
      ∧ (orderDir.length = 0 → lookupParam qp "order_dir" = none))
    ∧ (∀ (c : Client) (query queryType fields : String)
      (server : QueryParams → ReqResult (Page Item)) (fuel : Nat) (qp : QueryParams),
      qp ∈ (Search c query queryType fields server fuel).2.1 →
      (queryType.length = 0 → lookupParam qp "type" = none)
      ∧ (fields.length = 0 → lookupParam qp "fields" = none)) := by
  refine ⟨?_, ?_, ?_, ?_, ?_, ?_⟩
  · intro c fields orderBy orderDir server fuel qp hqp
    exact fetchLog_order_none server (fun _status dump => .errorResponse dump)
      [("token", c.apiToken), ("fields", fields), ("page", "1")]
      orderBy orderDir rfl rfl fuel qp hqp
  · intro c orderBy orderDir server fuel qp hqp
    exact fetchLog_order_none server (fun _status dump => .errorResponse dump)
      [("token", c.apiToken), ("fields", "id,parent_id,title"), ("page", "1")]
      orderBy orderDir rfl rfl fuel qp hqp
  · intro c id orderBy orderDir server fuel qp hqp
    exact fetchLog_order_none server
      (fun status dump =>
        if status == 404 then .notFound ("could not find note with IDs \x27" ++ id)
        else .errorResponse dump)
      [("token", c.apiToken), ("fields", "id,parent_id,title"), ("page", "1")]
      orderBy orderDir rfl rfl fuel qp hqp
  · intro c id fields orderBy orderDir server fuel qp hqp
    exact fetchLog_order_none server (fun _status dump => .errorResponse dump)
      [("token", c.apiToken), ("fields", fields), ("page", "1")]
      orderBy orderDir rfl rfl fuel qp hqp
  · intro c fields orderBy orderDir server fuel qp hqp
    exact fetchLog_order_none server (fun _status dump => .errorResponse dump)
      [("token", c.apiToken), ("fields", fields), ("page", "1")]
      orderBy orderDir rfl rfl fuel qp hqp
  · intro c query queryType fields server fuel qp hqp
    exact fetchLog_search_none server (fun _status dump => .errorResponse dump)
      c.apiToken query queryType fields fuel qp hqp

/-- One-page item server used by the Search parameter witness. -/
def serverW10 : QueryParams → ReqResult (Page Item) := fun _ =>
  .http 200 "" { items := [], hasMore := false }

/-- Witness for C10: a GetAllNotes call with both order arguments
empty issues its request with neither order entry, and a Search call
with empty queryType and fields issues its request with neither a
type nor a fields entry. -/
theorem claim_C10_emptyParamsOmitted_witness :
    lookupParam
        (buildListParams [("token", "tok"), ("fields", "id"), ("page", "1")] "" "")
        "order_by" = none
    ∧ lookupParam
        (buildListParams [("token", "tok"), ("fields", "id"), ("page", "1")] "" "")
        "order_dir" = none
    ∧ lookupParam (searchParams "tok" "q" "" "") "type" = none
    ∧ lookupParam (searchParams "tok" "q" "" "") "fields" = none := by
  have h1 := claim_C10_emptyParamsOmitted.1 { port := 41184, apiToken := "tok" }
    "id" "" "" serverW8 1
    (buildListParams [("token", "tok"), ("fields", "id"), ("page", "1")] "" "")
    (List.mem_singleton.mpr rfl)
  have h2 := claim_C10_emptyParamsOmitted.2.2.2.2.2 { port := 41184, apiToken := "tok" }
    "q" "" "" serverW10 1 (searchParams "tok" "q" "" "") (List.mem_singleton.mpr rfl)
  exact ⟨h1.1 rfl, h1.2 rfl, h2.1 rfl, h2.2 rfl⟩

end Goplin
